import Mathlib

/-!
Verification of the Simorgh AI Telegram bot (src/bot.py) against its
natural-language specification.

The one piece of stateful logic is the per-user daily-usage tracker held in
`SimorghAIBot.user_usage : Dict[int, Dict]`, manipulated by
`check_user_limit` and `increment_user_usage`.  We embed it shallowly:

* a Python `date` is modelled as a `Nat` day number — the code only ever
  compares dates for equality, so any type with decidable equality is
  faithful; "today" (`datetime.utcnow().date()`) becomes an explicit
  parameter threaded through each call;
* the usage dictionary becomes an association list keyed by user id, with
  the dict's replace-or-insert update semantics;
* Python `int` configuration values (`DAILY_LIMIT`, `MAX_QUESTION_LENGTH`)
  become `Int`; the stored per-user count is only ever created as 0 and
  incremented, hence `Nat`;
* the async HTTP calls (`ask_gemini`'s POST, the membership query) are
  modelled by oracle arguments describing the outcome of the single
  outbound interaction; the functions around them are translated exactly;
* `handle_message`'s question pipeline becomes a pure function from the
  incoming-message data, the two oracles and the bot state to the new
  state, a flag recording whether the Gemini call was reached, and the
  list of replies sent.  Failures of the platform `reply_text` call
  itself (the final try/except) are outside the model.
-/

/-- One entry of `self.user_usage`: the dict `{"date": ..., "count": ...}`. -/
structure UsageRecord where
  date : Nat
  count : Nat
deriving DecidableEq

/-- The fields of `SimorghAIBot` that the modelled methods read or write. -/
structure BotState where
  user_usage : List (Nat × UsageRecord)
  DAILY_LIMIT : Int
  MAX_QUESTION_LENGTH : Int
  channel_id : String
deriving DecidableEq

/-- Python `str.strip()`: drop leading and trailing whitespace characters. -/
def pyStrip (s : String) : String :=
  ⟨((s.data.dropWhile Char.isWhitespace).reverse.dropWhile Char.isWhitespace).reverse⟩

/-- Python `str.startswith(p)`: `p` is a prefix of the character sequence. -/
def pyStartsWith (s p : String) : Bool :=
  p.data.isPrefixOf s.data

/-- Dictionary lookup `self.user_usage[user_id]` / `user_id in self.user_usage`. -/
def lookupUsage : List (Nat × UsageRecord) → Nat → Option UsageRecord
  | [], _ => none
  | (k, v) :: rest, u => if k = u then some v else lookupUsage rest u

/-- Dictionary write `self.user_usage[user_id] = v`: replace in place if the
key is present, append otherwise. -/
def setUsage : List (Nat × UsageRecord) → Nat → UsageRecord → List (Nat × UsageRecord)
  | [], u, v => [(u, v)]
  | (k, w) :: rest, u, v =>
      if k = u then (u, v) :: rest else (k, w) :: setUsage rest u v

/-- `SimorghAIBot.check_user_limit` (src/bot.py lines 86–96).  Returns the
pair `(can_ask, remaining)` together with the mutated bot state.  `today`
stands for `datetime.utcnow().date()`. -/
def check_user_limit (today : Nat) (user_id : Nat) (s : BotState) :
    (Bool × Int) × BotState :=
  let usage0 :=
    if (lookupUsage s.user_usage user_id).isNone then
      setUsage s.user_usage user_id ⟨today, 0⟩
    else s.user_usage
  let ud0 := (lookupUsage usage0 user_id).getD ⟨today, 0⟩
  let ud := if ud0.date ≠ today then (⟨today, 0⟩ : UsageRecord) else ud0
  let usage := setUsage usage0 user_id ud
  ((decide ((ud.count : Int) < s.DAILY_LIMIT), max 0 (s.DAILY_LIMIT - ud.count)),
   { s with user_usage := usage })

/-- `SimorghAIBot.increment_user_usage` (src/bot.py lines 98–101).  Lazily
creates a fresh record for today when absent, then increments the count;
it performs no date comparison. -/
def increment_user_usage (today : Nat) (user_id : Nat) (s : BotState) : BotState :=
  let usage0 :=
    if (lookupUsage s.user_usage user_id).isNone then
      setUsage s.user_usage user_id ⟨today, 0⟩
    else s.user_usage
  let ud := (lookupUsage usage0 user_id).getD ⟨today, 0⟩
  { s with user_usage := setUsage usage0 user_id ⟨ud.date, ud.count + 1⟩ }

/-- The count `check_user_limit` effectively reports for a user: the stored
count after lazy creation (0 for an unseen user) and after the
day-rollover reset (0 when the stored date is not today). -/
def normCount (today : Nat) (user_id : Nat) (s : BotState) : Nat :=
  match lookupUsage s.user_usage user_id with
  | none => 0
  | some r => if r.date = today then r.count else 0

/-- A same-day quota operation on a fixed user, for stating interleaving
properties of the tracker. -/
inductive QuotaOp where
  | check
  | incr
deriving DecidableEq

/-- Run a same-day sequence of `check_user_limit` / `increment_user_usage`
calls for one user. -/
def runOps (today : Nat) (user_id : Nat) : List QuotaOp → BotState → BotState
  | [], s => s
  | QuotaOp.check :: ops, s => runOps today user_id ops (check_user_limit today user_id s).2
  | QuotaOp.incr :: ops, s => runOps today user_id ops (increment_user_usage today user_id s)

def MSG_NOT_CONFIGURED : String :=
  "⚠️ پاسخ‌دهی هوش‌مصنوعی (Gemini) پیکربندی نشده است."

def MSG_API_ERROR : String :=
  "❌ خطا در ارتباط با سرویس پاسخ‌گوی هوش مصنوعی. لطفاً بعداً تلاش کنید."

def MSG_NO_CANDIDATES : String :=
  "❌ نتوانستم پاسخی تولید کنم. لطفاً سوال‌تان را واضح‌تر کنید."

def MSG_INVALID_ANSWER : String :=
  "❌ پاسخ نامعتبری دریافت شد."

def MSG_EMPTY_ANSWER : String :=
  "❌ پاسخ خالی دریافت شد."

def MSG_TIMEOUT : String :=
  "❌ زمان پاسخ هوش مصنوعی طولانی شد. لطفاً دوباره تلاش کنید."

def MSG_INTERNAL_ERROR : String :=
  "❌ خطای داخلی در سرویس هوش مصنوعی. لطفاً بعداً تلاش کنید."

def MSG_JOIN_PROMPT : String :=
  "❌ برای استفاده از ربات، لطفاً ابتدا عضو کانال سیمرغ شوید."

def MSG_LIMIT_REACHED : String :=
  "❌ شما امروز تعداد مجاز سوالات را استفاده کرده‌اید. فردا دوباره تلاش کنید."

def MSG_PROCESSING : String :=
  "⌛ در حال پردازش سوال شما، لطفاً منتظر بمانید..."

def MSG_SEARCHING : String :=
  "⌛ در حال جستجو..."

def msg_too_long (m : Int) : String :=
  "❌ سوال شما خیلی طولانی است؛ لطفاً کمتر از " ++ toString m ++ " کاراکتر بنویسید."

def mkFooter (remaining limit : Int) (channel : String) : String :=
  "\n\n━━━━━━━━━━━━━━\n💡 سوالات باقی‌مانده: " ++ toString (max 0 remaining) ++ "/" ++ toString limit ++ "\n🔗 کانال: " ++ channel

/-- A part of a Gemini candidate's content: the dict that may carry a
`"text"` field (`parts[0].get("text", "")`). -/
structure GeminiPart where
  text : Option String
deriving DecidableEq

/-- Content of a Gemini candidate: may carry a `"parts"` list
(`content.get("parts") or []`). -/
structure GeminiContent where
  parts : Option (List GeminiPart)
deriving DecidableEq

/-- One Gemini candidate: may carry a `"content"` dict
(`candidates[0].get("content", {})`). -/
structure GeminiCandidate where
  content : Option GeminiContent
deriving DecidableEq

/-- A parsed Gemini response body: may carry a `"candidates"` list
(`data.get("candidates") or []`). -/
structure GeminiResponse where
  candidates : Option (List GeminiCandidate)
deriving DecidableEq

/-- Outcome of the single outbound HTTP interaction inside `ask_gemini`:
the request timed out (`asyncio.TimeoutError`), some other exception was
raised in the session/request/body handling (`except Exception`), or a
response arrived with a status code and a body that either parses as JSON
(`some`) or does not (`none` — `resp.json()` then raises, landing in the
generic handler). -/
inductive GeminiHttp where
  | timeout
  | transportError
  | resp (status : Nat) (body : Option GeminiResponse)
deriving DecidableEq

/-- `SimorghAIBot.ask_gemini` (src/bot.py lines 103–150) as a function of
the configured API key and of the outcome of its one outbound call.  With
no key configured the call returns immediately, before the oracle is ever
consulted. -/
def ask_gemini (api_key : Option String) (http : GeminiHttp) : String :=
  match api_key with
  | none => MSG_NOT_CONFIGURED
  | some _ =>
    match http with
    | GeminiHttp.timeout => MSG_TIMEOUT
    | GeminiHttp.transportError => MSG_INTERNAL_ERROR
    | GeminiHttp.resp status body =>
      if status ≠ 200 then MSG_API_ERROR
      else
        match body with
        | none => MSG_INTERNAL_ERROR
        | some data =>
          match data.candidates.getD [] with
          | [] => MSG_NO_CANDIDATES
          | c :: _ =>
            match (c.content.getD ⟨none⟩).parts.getD [] with
            | [] => MSG_INVALID_ANSWER
            | p :: _ =>
              let t := pyStrip (p.text.getD "")
              if t = "" then MSG_EMPTY_ANSWER else t

/-- Outcome of `context.bot.get_chat_member` inside `is_user_member`: the
query returned a member object with the given `status` string, or raised. -/
inductive GateOutcome where
  | ok (status : String)
  | err
deriving DecidableEq

/-- `SimorghAIBot.is_user_member` (src/bot.py lines 76–84): membership is
`status in ("member", "administrator", "creator")`; any exception yields
`False` (fail closed). -/
def is_user_member : GateOutcome → Bool
  | GateOutcome.ok status => ["member", "administrator", "creator"].contains status
  | GateOutcome.err => false

/-- The final send of `handle_message` (src/bot.py lines 372–378): one
message when `answer + footer` fits in 4096 characters, otherwise the
answer and the footer as two separate messages. -/
def send_full_answer (answer footer : String) : List String :=
  if (answer ++ footer).length ≤ 4096 then [answer ++ footer]
  else [answer, footer]

/-- The per-update data `handle_message` consumes: the
`awaiting_model_code` flag from `context.user_data`, the outcome of the
membership query, the raw message text, the user id, today's date, and
the text `ask_gemini` resolves to for this question. -/
structure PipelineInput where
  awaiting_model_code : Bool
  gate : GateOutcome
  raw_text : String
  user_id : Nat
  today : Nat
  ask_answer : String
deriving DecidableEq

/-- Result of one run of `handle_message`: the bot state afterwards,
whether the `ask_gemini` call was reached, and the texts sent in order. -/
structure PipelineResult where
  state : BotState
  aiCalled : Bool
  replies : List String
deriving DecidableEq

/-- `handle_message` (src/bot.py lines 308–386).  `search_result` is the
text `search_site_by_model` would resolve to when the search branch is
taken.  The best-effort typing indicator (its failures are swallowed) and
failures of the platform send itself are not part of the state model. -/
def handle_message (inp : PipelineInput) (search_result : String) (s : BotState) :
    PipelineResult :=
  let text := pyStrip inp.raw_text
  if inp.awaiting_model_code then
    { state := s, aiCalled := false, replies := [MSG_SEARCHING, search_result] }
  else if is_user_member inp.gate = false then
    { state := s, aiCalled := false, replies := [MSG_JOIN_PROMPT] }
  else if (text.length : Int) > s.MAX_QUESTION_LENGTH then
    { state := s, aiCalled := false, replies := [msg_too_long s.MAX_QUESTION_LENGTH] }
  else
    let res := check_user_limit inp.today inp.user_id s
    let can_ask := res.1.1
    let remaining := res.1.2
    let s1 := res.2
    if can_ask = false then
      { state := s1, aiCalled := false, replies := [MSG_LIMIT_REACHED] }
    else
      let answer := inp.ask_answer
      let success := !pyStartsWith answer "❌" && !pyStartsWith answer "⚠️"
      let s2 := if success then increment_user_usage inp.today inp.user_id s1 else s1
      let remaining2 := if success then remaining - 1 else remaining
      let footer := mkFooter remaining2 s.DAILY_LIMIT s.channel_id
      { state := s2, aiCalled := true,
        replies := MSG_PROCESSING :: send_full_answer answer footer }

/-- A bot state with the default limits and an empty usage map. -/
def freshState : BotState :=
  { user_usage := [], DAILY_LIMIT := 5, MAX_QUESTION_LENGTH := 500,
    channel_id := "@simorghAI" }

/-- A bot state holding one record for user 1, written on day 0 with
count 3. -/
def staleState : BotState :=
  { user_usage := [(1, ⟨0, 3⟩)], DAILY_LIMIT := 5, MAX_QUESTION_LENGTH := 500,
    channel_id := "@simorghAI" }

/-- A bot state in which user 1 has exhausted the limit for day 0. -/
def exhaustedState : BotState :=
  { user_usage := [(1, ⟨0, 5⟩)], DAILY_LIMIT := 5, MAX_QUESTION_LENGTH := 500,
    channel_id := "@simorghAI" }

/-- A 501-character question (all `a`), used for the length-limit scenario. -/
def longQuestion : String :=
  String.mk (List.replicate 501 'a')

/-- A 4000-character answer (all `x`), for the reply-splitting scenario. -/
def longAnswer : String :=
  String.mk (List.replicate 4000 'x')

/-- A 97-character footer stand-in (all `y`): together with `longAnswer`
it exceeds 4096 characters. -/
def longFooter : String :=
  String.mk (List.replicate 97 'y')

theorem lookup_set_self (m : List (Nat × UsageRecord)) (u : Nat) (v : UsageRecord) :
    lookupUsage (setUsage m u v) u = some v := by
  induction m with
  | nil => simp [setUsage, lookupUsage]
  | cons hd tl ih =>
      obtain ⟨k, w⟩ := hd
      by_cases h : k = u
      · simp [setUsage, lookupUsage, h]
      · simp [setUsage, lookupUsage, h, ih]

theorem lookup_set_other (m : List (Nat × UsageRecord)) (u u' : Nat) (v : UsageRecord)
    (h : u' ≠ u) : lookupUsage (setUsage m u v) u' = lookupUsage m u' := by
  induction m with
  | nil => simp [setUsage, lookupUsage, Ne.symm h]
  | cons hd tl ih =>
      obtain ⟨k, w⟩ := hd
      by_cases hk : k = u
      · subst hk
        simp [setUsage, lookupUsage, Ne.symm h]
      · simp [setUsage, lookupUsage, hk, ih]

theorem set_set (m : List (Nat × UsageRecord)) (u : Nat) (v w : UsageRecord) :
    setUsage (setUsage m u v) u w = setUsage m u w := by
  induction m with
  | nil => simp [setUsage]
  | cons hd tl ih =>
      obtain ⟨k, x⟩ := hd
      by_cases h : k = u
      · simp [setUsage, h]
      · simp [setUsage, h, ih]

/-- Closed-form characterisation of `check_user_limit`: it reports the
normalised count against the daily limit and writes back the record
`⟨today, normCount⟩`. -/
theorem check_user_limit_eq (today user_id : Nat) (s : BotState) :
    check_user_limit today user_id s =
      ((decide ((normCount today user_id s : Int) < s.DAILY_LIMIT),
        max 0 (s.DAILY_LIMIT - (normCount today user_id s : Int))),
       { s with
          user_usage := setUsage s.user_usage user_id ⟨today, normCount today user_id s⟩ }) := by
  cases h : lookupUsage s.user_usage user_id with
  | none =>
      simp [check_user_limit, normCount, h, lookup_set_self, set_set]
  | some r =>
      obtain ⟨rd, rc⟩ := r
      by_cases hd : rd = today
      · subst hd
        simp [check_user_limit, normCount, h]
      · simp [check_user_limit, normCount, h, hd]

/-- Closed-form characterisation of `increment_user_usage`: a fresh record
`⟨today, 1⟩` for an unseen user, otherwise the stored date is kept and the
count incremented. -/
theorem increment_user_usage_eq (today user_id : Nat) (s : BotState) :
    increment_user_usage today user_id s =
      { s with user_usage :=
          match lookupUsage s.user_usage user_id with
          | none => setUsage s.user_usage user_id ⟨today, 1⟩
          | some r => setUsage s.user_usage user_id ⟨r.date, r.count + 1⟩ } := by
  cases h : lookupUsage s.user_usage user_id with
  | none => simp [increment_user_usage, h, lookup_set_self, set_set]
  | some r => simp [increment_user_usage, h]

theorem check_DAILY_LIMIT (today user_id : Nat) (s : BotState) :
    ((check_user_limit today user_id s).2).DAILY_LIMIT = s.DAILY_LIMIT := by
  rw [check_user_limit_eq]

theorem incr_DAILY_LIMIT (today user_id : Nat) (s : BotState) :
    (increment_user_usage today user_id s).DAILY_LIMIT = s.DAILY_LIMIT := rfl

theorem runOps_DAILY_LIMIT (today user_id : Nat) (ops : List QuotaOp) (s : BotState) :
    (runOps today user_id ops s).DAILY_LIMIT = s.DAILY_LIMIT := by
  induction ops generalizing s with
  | nil => rfl
  | cons op ops ih =>
      cases op with
      | check => rw [runOps, ih, check_DAILY_LIMIT]
      | incr => rw [runOps, ih, incr_DAILY_LIMIT]

/-- A same-day `check_user_limit` call does not change the count the
tracker observes. -/
theorem normCount_check (today user_id : Nat) (s : BotState) :
    normCount today user_id (check_user_limit today user_id s).2
      = normCount today user_id s := by
  rw [check_user_limit_eq]
  simp [normCount, lookup_set_self]

/-- `increment_user_usage` never decreases the count the tracker observes
for today. -/
theorem normCount_incr_ge (today user_id : Nat) (s : BotState) :
    normCount today user_id s
      ≤ normCount today user_id (increment_user_usage today user_id s) := by
  rw [increment_user_usage_eq]
  cases h : lookupUsage s.user_usage user_id with
  | none => simp [normCount, h]
  | some r =>
      simp only [normCount, h, lookup_set_self]
      by_cases hd : r.date = today
      · simp [hd]
      · simp [hd]

theorem normCount_runOps_ge (today user_id : Nat) (ops : List QuotaOp) (s : BotState) :
    normCount today user_id s
      ≤ normCount today user_id (runOps today user_id ops s) := by
  induction ops generalizing s with
  | nil => exact le_refl _
  | cons op ops ih =>
      cases op with
      | check =>
          rw [runOps]
          exact (normCount_check today user_id s).symm.le.trans (ih _)
      | incr =>
          rw [runOps]
          exact (normCount_incr_ge today user_id s).trans (ih _)

/-- Two states agreeing on the observed count and the limit get the same
answer from `check_user_limit`. -/
theorem check_fst_congr (today user_id : Nat) (s t : BotState)
    (hn : normCount today user_id s = normCount today user_id t)
    (hL : s.DAILY_LIMIT = t.DAILY_LIMIT) :
    (check_user_limit today user_id s).1 = (check_user_limit today user_id t).1 := by
  rw [check_user_limit_eq, check_user_limit_eq, hn, hL]

/-- Claim C1: for every user and tracker state, `check_user_limit` always
succeeds and reports `can_ask = (count < DAILY_LIMIT)` and
`remaining = max 0 (DAILY_LIMIT - count)`, where `count` is the stored
count after lazy record creation (0 for an unseen user) and after the
day-rollover reset; as a side effect the record `⟨today, count⟩` is
stored. -/
theorem c1_check_user_limit_contract (today user_id : Nat) (s : BotState) :
    (check_user_limit today user_id s).1.1
        = decide ((normCount today user_id s : Int) < s.DAILY_LIMIT)
    ∧ (check_user_limit today user_id s).1.2
        = max 0 (s.DAILY_LIMIT - (normCount today user_id s : Int))
    ∧ lookupUsage (check_user_limit today user_id s).2.user_usage user_id
        = some ⟨today, normCount today user_id s⟩ := by
  rw [check_user_limit_eq]
  exact ⟨rfl, rfl, lookup_set_self _ _ _⟩

/-- Claim C2 counterexample: user 1 is stored as `⟨date 0, count 3⟩` and
today is day 1, yet the first `increment_user_usage` call leaves the
stored date at 0 — not advanced to today — and the count at 4 — not
reset to 0. -/
theorem c2_increment_no_rollover_cex :
    lookupUsage (increment_user_usage 1 1 staleState).user_usage 1
        = some ⟨0, 4⟩
    ∧ (0 : Nat) ≠ 1 ∧ (4 : Nat) ≠ 0 := by decide

/-- Claim C2 (amended): for a stored record whose date differs from the
current date, the first `check_user_limit` call resets the count to 0 and
advances the date to today, regardless of how many days elapsed;
`increment_user_usage` performs no rollover — it keeps the stored date
and increments the stored count. -/
theorem c2_rollover_amended (today user_id : Nat) (s : BotState) (r : UsageRecord)
    (h1 : lookupUsage s.user_usage user_id = some r) (h2 : r.date ≠ today) :
    lookupUsage (check_user_limit today user_id s).2.user_usage user_id
        = some ⟨today, 0⟩
    ∧ lookupUsage (increment_user_usage today user_id s).user_usage user_id
        = some ⟨r.date, r.count + 1⟩ := by
  constructor
  · rw [check_user_limit_eq]
    simp [normCount, h1, h2, lookup_set_self]
  · rw [increment_user_usage_eq]
    simp [h1, lookup_set_self]

theorem c2_rollover_amended_witness :
    lookupUsage (check_user_limit 1 1 staleState).2.user_usage 1 = some ⟨1, 0⟩
    ∧ lookupUsage (increment_user_usage 1 1 staleState).user_usage 1 = some ⟨0, 4⟩ := by
  exact c2_rollover_amended 1 1 staleState ⟨0, 3⟩ (by decide) (by decide)

/-- Claim C3: when the Gemini call resolves to a sentinel-prefixed failure
text ("❌"/"⚠️"), the pipeline skips `increment_user_usage`: the final
state is exactly what `check_user_limit` left behind, the count the
tracker observes is unchanged, and a further `check_user_limit` reports
the same `(can_ask, remaining)` pair as before the interaction. -/
theorem c3_failed_ask_preserves_quota (inp : PipelineInput) (sr : String) (s : BotState)
    (h1 : inp.awaiting_model_code = false)
    (h2 : is_user_member inp.gate = true)
    (h3 : ¬(((pyStrip inp.raw_text).length : Int) > s.MAX_QUESTION_LENGTH))
    (h4 : (check_user_limit inp.today inp.user_id s).1.1 = true)
    (h5 : pyStartsWith inp.ask_answer "❌" = true
          ∨ pyStartsWith inp.ask_answer "⚠️" = true) :
    (handle_message inp sr s).state = (check_user_limit inp.today inp.user_id s).2
    ∧ normCount inp.today inp.user_id (handle_message inp sr s).state
        = normCount inp.today inp.user_id s
    ∧ (check_user_limit inp.today inp.user_id (handle_message inp sr s).state).1
        = (check_user_limit inp.today inp.user_id s).1 := by
  have hm : (handle_message inp sr s).state
      = (check_user_limit inp.today inp.user_id s).2 := by
    rcases h5 with h5 | h5 <;> simp [handle_message, h1, h2, h3, h4, h5]
  refine ⟨hm, ?_, ?_⟩
  · rw [hm, normCount_check]
  · rw [hm]
    exact check_fst_congr _ _ _ _ (normCount_check _ _ _) (check_DAILY_LIMIT _ _ _)

theorem c3_failed_ask_preserves_quota_witness :
    (handle_message ⟨false, GateOutcome.ok "member", "hi", 1, 0, "❌ e"⟩ "sr" freshState).state
        = (check_user_limit 0 1 freshState).2
    ∧ normCount 0 1
        (handle_message ⟨false, GateOutcome.ok "member", "hi", 1, 0, "❌ e"⟩ "sr" freshState).state
        = normCount 0 1 freshState
    ∧ (check_user_limit 0 1
        (handle_message ⟨false, GateOutcome.ok "member", "hi", 1, 0, "❌ e"⟩ "sr" freshState).state).1
        = (check_user_limit 0 1 freshState).1 := by
  exact c3_failed_ask_preserves_quota ⟨false, GateOutcome.ok "member", "hi", 1, 0, "❌ e"⟩
    "sr" freshState rfl (by decide) (by decide) (by decide) (Or.inl (by decide))

/-- Claim C4: with `DAILY_LIMIT = 5`, a fresh user on a fixed day:
`check_user_limit` reports `(true, 5)` after 0 increments, `(false, 0)`
after 5 increments, and still `(false, 0)` after a 6th over-increment —
the tracker does not forbid incrementing past the limit, and `remaining`
floors at 0. -/
theorem c4_daily_limit_five_scenario :
    (check_user_limit 0 7 freshState).1 = (true, 5)
    ∧ (check_user_limit 0 7 (runOps 0 7 (List.replicate 5 QuotaOp.incr) freshState)).1
        = (false, 0)
    ∧ (check_user_limit 0 7 (runOps 0 7 (List.replicate 6 QuotaOp.incr) freshState)).1
        = (false, 0) := by
  decide

/-- Claim C5: for every user and every same-day interleaving of
`check_user_limit` and `increment_user_usage` calls, the `remaining`
reported by successive checks is monotonically non-increasing; once it is
0, every later check that day reports `can_ask = false` and
`remaining = 0`. -/
theorem c5_remaining_monotone (today user_id : Nat) (ops : List QuotaOp) (s : BotState) :
    (check_user_limit today user_id (runOps today user_id ops s)).1.2
        ≤ (check_user_limit today user_id s).1.2
    ∧ ((check_user_limit today user_id s).1.2 = 0 →
        (check_user_limit today user_id (runOps today user_id ops s)).1.1 = false
        ∧ (check_user_limit today user_id (runOps today user_id ops s)).1.2 = 0) := by
  have hn := normCount_runOps_ge today user_id ops s
  have hL := runOps_DAILY_LIMIT today user_id ops s
  rw [check_user_limit_eq today user_id (runOps today user_id ops s),
      check_user_limit_eq today user_id s, hL]
  dsimp only
  refine ⟨by omega, fun h0 => ⟨?_, by omega⟩⟩
  rw [decide_eq_false_iff_not]
  omega

theorem c5_remaining_monotone_witness :
    (check_user_limit 0 1 (runOps 0 1 [QuotaOp.incr] exhaustedState)).1.1 = false
    ∧ (check_user_limit 0 1 (runOps 0 1 [QuotaOp.incr] exhaustedState)).1.2 = 0 := by
  exact (c5_remaining_monotone 0 1 [QuotaOp.incr] exhaustedState).2 (by decide)

/-- Claim C6: a question longer than `MAX_QUESTION_LENGTH` is answered
with the too-long rejection and the pipeline stops before the quota check
and before the Gemini call: the tracker state is returned untouched and
no AI call is made. -/
theorem c6_too_long_rejected (inp : PipelineInput) (sr : String) (s : BotState)
    (h1 : inp.awaiting_model_code = false)
    (h2 : is_user_member inp.gate = true)
    (h3 : ((pyStrip inp.raw_text).length : Int) > s.MAX_QUESTION_LENGTH) :
    handle_message inp sr s
      = { state := s, aiCalled := false,
          replies := [msg_too_long s.MAX_QUESTION_LENGTH] } := by
  simp [handle_message, h1, h2, h3]

set_option maxRecDepth 20000 in
theorem c6_too_long_rejected_witness :
    handle_message ⟨false, GateOutcome.ok "member", longQuestion, 1, 0, "a"⟩ "sr" freshState
      = { state := freshState, aiCalled := false, replies := [msg_too_long 500] } := by
  exact c6_too_long_rejected ⟨false, GateOutcome.ok "member", longQuestion, 1, 0, "a"⟩
    "sr" freshState rfl (by decide) (by decide)

/-- Claim C7: the membership gate runs first and fails closed — whenever
`is_user_member` yields false (not a member, or the query raised and the
fail-closed handler returned false), the pipeline replies with the join
prompt and stops for every question text, however long: no state change,
no quota consumed, no Gemini call; and a gate error indeed yields false. -/
theorem c7_membership_first_fail_closed (inp : PipelineInput) (sr : String) (s : BotState)
    (h1 : inp.awaiting_model_code = false)
    (h2 : is_user_member inp.gate = false) :
    handle_message inp sr s
      = { state := s, aiCalled := false, replies := [MSG_JOIN_PROMPT] }
    ∧ is_user_member GateOutcome.err = false := by
  refine ⟨?_, rfl⟩
  simp [handle_message, h1, h2]

theorem c7_membership_first_fail_closed_witness :
    handle_message ⟨false, GateOutcome.err, longQuestion, 1, 0, "a"⟩ "sr" freshState
      = { state := freshState, aiCalled := false, replies := [MSG_JOIN_PROMPT] }
    ∧ is_user_member GateOutcome.err = false := by
  exact c7_membership_first_fail_closed ⟨false, GateOutcome.err, longQuestion, 1, 0, "a"⟩
    "sr" freshState rfl rfl

/-- Claim C8: `ask_gemini` is a total function of its inputs — it never
raises — and maps every failure outcome of its one outbound call to a
fixed short message: non-200 status, timeout, transport error,
unparseable body, missing candidates, missing parts, and
empty-after-strip text each get their message; with no API key it returns
the fixed not-configured message whatever the oracle says, i.e. without
any network interaction. -/
theorem c8_ask_gemini_error_contract (k : String) (http : GeminiHttp)
    (status : Nat) (body : Option GeminiResponse) (d : GeminiResponse) :
    ask_gemini none http = MSG_NOT_CONFIGURED
    ∧ ask_gemini (some k) GeminiHttp.timeout = MSG_TIMEOUT
    ∧ ask_gemini (some k) GeminiHttp.transportError = MSG_INTERNAL_ERROR
    ∧ (status ≠ 200 →
        ask_gemini (some k) (GeminiHttp.resp status body) = MSG_API_ERROR)
    ∧ ask_gemini (some k) (GeminiHttp.resp 200 none) = MSG_INTERNAL_ERROR
    ∧ (d.candidates.getD [] = [] →
        ask_gemini (some k) (GeminiHttp.resp 200 (some d)) = MSG_NO_CANDIDATES)
    ∧ ask_gemini (some k) (GeminiHttp.resp 200 (some ⟨some [⟨some ⟨some []⟩⟩]⟩))
        = MSG_INVALID_ANSWER
    ∧ ask_gemini (some k) (GeminiHttp.resp 200 (some ⟨some [⟨some ⟨some [⟨some "  "⟩]⟩⟩]⟩))
        = MSG_EMPTY_ANSWER := by
  refine ⟨rfl, rfl, rfl, ?_, rfl, ?_, rfl, rfl⟩
  · intro h
    simp [ask_gemini, h]
  · intro h
    simp [ask_gemini, h]

theorem c8_ask_gemini_error_contract_witness :
    ask_gemini (some "key") (GeminiHttp.resp 500 none) = MSG_API_ERROR
    ∧ ask_gemini (some "key") (GeminiHttp.resp 200 (some ⟨none⟩)) = MSG_NO_CANDIDATES :=
  ⟨(c8_ask_gemini_error_contract "key" GeminiHttp.timeout 500 none ⟨none⟩).2.2.2.1
      (by decide),
   (c8_ask_gemini_error_contract "key" GeminiHttp.timeout 500 none ⟨none⟩).2.2.2.2.2.1
      rfl⟩

/-- Claim C9: the final send — when `answer + footer` is at most 4096
characters it goes out as one message, when it exceeds 4096 the answer
and the footer go out as two separate messages; and the pipeline's
question path indeed sends the processing notice followed by exactly that
composition applied to the Gemini answer and the quota footer. -/
theorem c9_reply_split_4096 (answer footer : String)
    (inp : PipelineInput) (sr : String) (s : BotState)
    (h1 : inp.awaiting_model_code = false)
    (h2 : is_user_member inp.gate = true)
    (h3 : ¬(((pyStrip inp.raw_text).length : Int) > s.MAX_QUESTION_LENGTH))
    (h4 : (check_user_limit inp.today inp.user_id s).1.1 = true) :
    ((answer ++ footer).length ≤ 4096 →
        send_full_answer answer footer = [answer ++ footer])
    ∧ (4096 < (answer ++ footer).length →
        send_full_answer answer footer = [answer, footer])
    ∧ ∃ f : String, (handle_message inp sr s).replies
        = MSG_PROCESSING :: send_full_answer inp.ask_answer f := by
  refine ⟨fun h => ?_, fun h => ?_, ?_⟩
  · unfold send_full_answer
    rw [if_pos h]
  · unfold send_full_answer
    rw [if_neg (by omega)]
  · have e : (handle_message inp sr s).replies
        = MSG_PROCESSING :: send_full_answer inp.ask_answer
            (mkFooter
              (if (!pyStartsWith inp.ask_answer "❌" && !pyStartsWith inp.ask_answer "⚠️") = true
                then (check_user_limit inp.today inp.user_id s).1.2 - 1
                else (check_user_limit inp.today inp.user_id s).1.2)
              s.DAILY_LIMIT s.channel_id) := by
      simp [handle_message, h1, h2, h3, h4]
    exact ⟨_, e⟩

set_option maxRecDepth 20000 in
theorem c9_reply_split_4096_witness :
    send_full_answer "aa" "bb" = ["aa" ++ "bb"]
    ∧ send_full_answer longAnswer longFooter = [longAnswer, longFooter]
    ∧ ∃ f : String,
        (handle_message ⟨false, GateOutcome.ok "member", "hi", 1, 0, "ok"⟩ "sr" freshState).replies
          = MSG_PROCESSING :: send_full_answer "ok" f := by
  refine ⟨?_, ?_, ?_⟩
  · exact (c9_reply_split_4096 "aa" "bb" ⟨false, GateOutcome.ok "member", "hi", 1, 0, "ok"⟩
      "sr" freshState rfl (by decide) (by decide) (by decide)).1 (by decide)
  · refine (c9_reply_split_4096 longAnswer longFooter
      ⟨false, GateOutcome.ok "member", "hi", 1, 0, "ok"⟩
      "sr" freshState rfl (by decide) (by decide) (by decide)).2.1 ?_
    have ha : longAnswer.length = 4000 := by
      rw [longAnswer, String.length_mk, List.length_replicate]
    have hf : longFooter.length = 97 := by
      rw [longFooter, String.length_mk, List.length_replicate]
    rw [String.length_append, ha, hf]
    omega
  · exact (c9_reply_split_4096 "aa" "bb" ⟨false, GateOutcome.ok "member", "hi", 1, 0, "ok"⟩
      "sr" freshState rfl (by decide) (by decide) (by decide)).2.2

/-- Claim C10: the pair one `check_user_limit` call returns is internally
consistent — `can_ask` is true exactly when `remaining > 0` — for every
integer daily limit and every stored state. -/
theorem c10_canAsk_iff_remaining_pos (today user_id : Nat) (s : BotState) :
    (check_user_limit today user_id s).1.1 = true
      ↔ 0 < (check_user_limit today user_id s).1.2 := by
  rw [check_user_limit_eq]
  dsimp only
  rw [decide_eq_true_eq]
  omega
